import Mathlib

/-!
Shallow embedding of the xray-health-exporter tunnel core
(batonogov/xray-health-exporter): the Prometheus metric registry
(internal/metrics/metrics.go), tunnel manager (tunnel manager source file:
NewManager / Initialize / Reload / StopAll / HealthHandler), health prober
(internal/checker/checker.go), SOCKS5 dialer (socks dialer source file:
DialContext), VLESS URL parser (ParseVLESSURL) and Xray config builder
(internal/tunnel/xray.go, instance.go).

Modelling conventions:
* Go machine integers are modelled as `Int`/`Nat`; byte truncation
  (`byte(x)`) is explicit `% 256` / `emod 256`.
* External collaborators (the network, the Xray core engine, YAML/file
  input, wall-clock time) are passed in as explicit oracle parameters
  (`Bool` success flags, `Option` results, byte lists for the proxy's
  wire responses), so every function stays executable and the control
  flow of the Go source is preserved branch for branch.
* Prometheus metric vectors are association lists from label tuples to
  values.  Gauge values that are `float64` in Go (latency seconds) are
  carried as opaque `Int` inputs: no claim inspects their numeric value,
  only which series is created, updated or deleted.
-/

namespace XrayHealth

/-- Lookup in an association list (first matching key), mirroring how a
Prometheus metric vector resolves one labelled child series. -/
def assocGet {α β : Type} [DecidableEq α] : List (α × β) → α → Option β
  | [], _ => none
  | (a, b) :: t, k => if a = k then some b else assocGet t k

/-- Set the value at a key (replace the first binding, else append):
`vec.With(labels).Set(v)` — the child series is created on demand. -/
def assocSet {α β : Type} [DecidableEq α] : List (α × β) → α → β → List (α × β)
  | [], k, v => [(k, v)]
  | (a, b) :: t, k, v => if a = k then (k, v) :: t else (a, b) :: assocSet t k v

/-- Increment a counter child: `vec.With(labels).Inc()` — a missing child
starts at 0 and is created by the access. -/
def counterInc {α : Type} [DecidableEq α] (l : List (α × Nat)) (k : α) : List (α × Nat) :=
  assocSet l k ((assocGet l k).getD 0 + 1)

/-- Delete every binding of a key: `vec.DeleteLabelValues(...)`. -/
def assocDel {α β : Type} [DecidableEq α] (l : List (α × β)) (k : α) : List (α × β) :=
  l.filter (fun p => p.1 ≠ k)

theorem assocGet_set_self {α β : Type} [DecidableEq α] (l : List (α × β)) (k : α) (v : β) :
    assocGet (assocSet l k v) k = some v := by
  induction l with
  | nil => simp [assocGet, assocSet]
  | cons hd t ih =>
    by_cases h : hd.1 = k <;> simp [assocSet, assocGet, h, ih]

theorem assocGet_set_ne {α β : Type} [DecidableEq α] (l : List (α × β)) (k k' : α) (v : β)
    (h : k ≠ k') : assocGet (assocSet l k v) k' = assocGet l k' := by
  induction l with
  | nil => simp [assocGet, assocSet, h]
  | cons hd t ih =>
    by_cases hh : hd.1 = k
    · subst hh; simp [assocSet, assocGet, h]
    · simp [assocSet, assocGet, hh, ih]

theorem counterInc_get_self {α : Type} [DecidableEq α] (l : List (α × Nat)) (k : α) :
    (assocGet (counterInc l k) k).getD 0 = (assocGet l k).getD 0 + 1 := by
  simp [counterInc, assocGet_set_self]

theorem counterInc_get_ne {α : Type} [DecidableEq α] (l : List (α × Nat)) (k k' : α)
    (h : k ≠ k') : assocGet (counterInc l k) k' = assocGet l k' := by
  simp [counterInc, assocGet_set_ne _ _ _ _ h]

/-- `metrics.LabelSet` — the 4-tuple keying per-tunnel series. -/
structure LabelSet where
  name : String
  server : String
  security : String
  sni : String
deriving DecidableEq

/-- `LabelSet.key()`: `fmt.Sprintf("%s|%s|%s|%s", ...)`. -/
def LabelSet.key (ls : LabelSet) : String :=
  ls.name ++ "|" ++ ls.server ++ "|" ++ ls.security ++ "|" ++ ls.sni

/-- The state of the metric registry (`metrics.Metrics`): one association
list per family.  `xray_tunnel_check_total` is keyed by the 5-tuple
(label set, result). -/
structure MetricsState where
  tunnelUp : List (LabelSet × Int)
  tunnelLatency : List (LabelSet × Int)
  tunnelCheckTotal : List ((LabelSet × String) × Nat)
  tunnelLastSuccess : List (LabelSet × Int)
  tunnelHTTPStatus : List (LabelSet × Int)
  tunnelInitErrors : Nat
deriving DecidableEq

/-- A freshly created registry (`metrics.New`): no labelled child series
exist yet, the global init-error counter is 0. -/
def MetricsState.empty : MetricsState :=
  ⟨[], [], [], [], [], 0⟩

/-- `Metrics.CleanupRemoved(old, new)`: delete every family's series for
label sets present in `old` whose `key()` does not occur among the
`key()`s of `new` (the Go code compares `key()` strings via a map). -/
def cleanupRemoved (m : MetricsState) (old new : List LabelSet) : MetricsState :=
  if old = [] then m
  else
    let newKeys := new.map LabelSet.key
    old.foldl
      (fun acc ls =>
        if ls.key ∈ newKeys then acc
        else
          { acc with
            tunnelUp := assocDel acc.tunnelUp ls
            tunnelLatency := assocDel acc.tunnelLatency ls
            tunnelLastSuccess := assocDel acc.tunnelLastSuccess ls
            tunnelHTTPStatus := assocDel acc.tunnelHTTPStatus ls
            tunnelCheckTotal :=
              assocDel (assocDel acc.tunnelCheckTotal (ls, "success")) (ls, "failure") })
      m

/-- Split a character list at the first occurrence of `c`:
returns the part before it and, when found, the part after it.
(Mirrors `strings.Cut`.) -/
def splitFirst (c : Char) : List Char → List Char × Option (List Char)
  | [] => ([], none)
  | x :: t =>
    if x = c then ([], some t)
    else
      let r := splitFirst c t
      (x :: r.1, r.2)

/-- Split a character list at the last occurrence of `c`
(mirrors `strings.LastIndex`); `none` when `c` does not occur. -/
def splitLast (c : Char) (l : List Char) : Option (List Char × List Char) :=
  match splitFirst c l.reverse with
  | (a, some r) => some (r.reverse, a.reverse)
  | (_, none) => none

/-- `strings.HasPrefix` on character lists (structural, so that concrete
URL strings evaluate inside the kernel). -/
def listHasPrefix : List Char → List Char → Bool
  | _, [] => true
  | [], _ :: _ => false
  | a :: s, b :: p => a = b && listHasPrefix s p

/-- `strings.HasPrefix s pre`. -/
def goHasPrefix (s pre : String) : Bool :=
  listHasPrefix s.toList pre.toList

/-- The characters Go's `net/url` accepts in the userinfo component
(`validUserinfo`): unreserved, sub-delims, `:` and percent. -/
def isUserinfoChar (c : Char) : Bool :=
  c.isAlpha || c.isDigit ||
  c = '-' || c = '.' || c = '_' || c = ':' || c = '~' ||
  c = '!' || c = '$' || c = '&' || c = '\x27' || c = '(' || c = ')' ||
  c = '*' || c = '+' || c = ',' || c = ';' || c = '=' || c = '%' || c = '@'

/-- The components of a parsed `vless://` URL that `ParseVLESSURL` reads:
`u.User.Username()`, `u.Hostname()`, `u.Port()` and `u.RawQuery`. -/
structure GoURL where
  username : String
  hostname : String
  portStr : String
  rawQuery : String
deriving DecidableEq

/-- `net/url`'s `parseHost` combined with `Hostname()`/`Port()`:
in a non-bracketed host the part after the last `:` is the port and
must be all digits (possibly empty), else `url.Parse` fails with an
invalid-port error; a bracketed `[...]` host must contain `]`, and
`Hostname()` strips the brackets. -/
def parseHostPort (hp : List Char) : Except String (String × String) :=
  match hp with
  | '[' :: t =>
    match splitLast ']' t with
    | none => .error "missing right bracket in host"
    | some (inside, afterBr) =>
      match afterBr with
      | [] => .ok (inside.asString, "")
      | ':' :: p =>
        if p.all Char.isDigit then .ok (inside.asString, p.asString)
        else .error "invalid port after host"
      | _ => .error "invalid character after host bracket"
  | _ =>
    match splitLast ':' hp with
    | none => .ok (hp.asString, "")
    | some (h, p) =>
      if p.all Char.isDigit then .ok (h.asString, p.asString)
      else .error "invalid port after host"

/-- Model of Go's `url.Parse` specialised to `vless://` URLs, returning
the components `ParseVLESSURL` consumes.  Faithful to `net/url` for URLs
without percent-escapes: the fragment is cut at the first `#`, the query
at the first `?`, the authority runs to the first `/`; the userinfo is
the part before the last `@` and must contain only `validUserinfo`
characters; host and port go through `parseHostPort`; `Username()` is
the userinfo up to the first `:`. -/
def goURLParse (s : String) : Except String GoURL :=
  if ¬ goHasPrefix s "vless://" then .error "missing vless scheme"
  else
    let rest := s.toList.drop 8
    let beforeFrag := (splitFirst '#' rest).1
    let cutQ := splitFirst '?' beforeFrag
    let rawQuery := (cutQ.2.getD []).asString
    let authority := (splitFirst '/' cutQ.1).1
    let (userinfo, hostport) :=
      match splitLast '@' authority with
      | some (u, hp) => (some u, hp)
      | none => (none, authority)
    match userinfo with
    | some u =>
      if ¬ u.all isUserinfoChar then .error "net/url: invalid userinfo"
      else
        match parseHostPort hostport with
        | .error e => .error e
        | .ok (h, p) =>
          .ok ⟨(splitFirst ':' u).1.asString, h, p, rawQuery⟩
    | none =>
      match parseHostPort hostport with
      | .error e => .error e
      | .ok (h, p) => .ok ⟨"", h, p, rawQuery⟩

/-- Split a character list at every occurrence of `c` (the segments of a
raw query between `&`s). -/
def splitAll (c : Char) : List Char → List (List Char)
  | [] => [[]]
  | x :: t =>
    let r := splitAll c t
    if x = c then [] :: r
    else (x :: r.headD []) :: r.tail

/-- `url.Values.Get(key)` over a raw query, per `url.ParseQuery`: segments
are cut at `&`; a segment containing `;` is dropped, as is an empty one;
each kept segment is cut at the first `=`; the first value for the key
wins, a missing key gives `""`.  (Percent- and plus-decoding are not
modelled; the URLs in the claims contain neither.) -/
def queryGet (rawQuery key : String) : String :=
  lookupSegs (splitAll '&' rawQuery.toList)
where
  lookupSegs : List (List Char) → String
    | [] => ""
    | seg :: rest =>
      if seg.contains ';' ∨ seg = [] then lookupSegs rest
      else
        let kv := splitFirst '=' seg
        if kv.1.asString = key then (kv.2.getD []).asString
        else lookupSegs rest

/-- Digit-list to number (most significant first). -/
def digitsToNat (l : List Char) : Nat :=
  l.foldl (fun acc c => acc * 10 + (c.toNat - 48)) 0

/-- Go's `strconv.Atoi`: optional single sign, then at least one digit,
no other characters; values outside the signed 64-bit range are an
error (`ErrRange`). -/
def goAtoi (s : String) : Option Int :=
  let cs := s.toList
  let (neg, digits) :=
    match cs with
    | '-' :: t => (true, t)
    | '+' :: t => (false, t)
    | t => (false, t)
  if digits = [] ∨ ¬ digits.all Char.isDigit then none
  else
    let v := digitsToNat digits
    if neg then
      if v ≤ 2 ^ 63 then some (-(v : Int)) else none
    else
      if v ≤ 2 ^ 63 - 1 then some (v : Int) else none

/-- `tunnel.VLESSConfig` — parsed VLESS URL parameters. -/
structure VLESSConfig where
  uuid : String
  address : String
  port : Int
  security : String
  pbk : String
  sni : String
  fp : String
  sid : String
  spx : String
  type : String
deriving DecidableEq

/-- `tunnel.ParseVLESSURL`: require the `vless://` scheme, run
`url.Parse`, read `Username()`/`Hostname()`, require `Atoi(u.Port())`
to succeed, then read the recognised query keys.  No emptiness check is
performed on the username or the host. -/
def parseVLESSURL (vlessURL : String) : Except String VLESSConfig :=
  if ¬ goHasPrefix vlessURL "vless://" then .error "invalid vless URL"
  else
    match goURLParse vlessURL with
    | .error e => .error ("failed to parse URL: " ++ e)
    | .ok u =>
      match goAtoi u.portStr with
      | none => .error "invalid port"
      | some port =>
        .ok
          { uuid := u.username
            address := u.hostname
            port := port
            type := queryGet u.rawQuery "type"
            security := queryGet u.rawQuery "security"
            pbk := queryGet u.rawQuery "pbk"
            sni := queryGet u.rawQuery "sni"
            fp := queryGet u.rawQuery "fp"
            sid := queryGet u.rawQuery "sid"
            spx := queryGet u.rawQuery "spx" }

/-- Nanoseconds per duration unit, as in Go's `time.ParseDuration`
unit map. -/
def durationUnitNs : String → Option Int
  | "ns" => some 1
  | "us" => some 1000
  | "µs" => some 1000
  | "μs" => some 1000
  | "ms" => some 1000000
  | "s" => some 1000000000
  | "m" => some 60000000000
  | "h" => some 3600000000000
  | _ => none

/-- One pass of `time.ParseDuration`'s loop, fuelled by the input length
(each iteration consumes at least one character).  A term is an integer
part and/or a fraction, followed by a unit drawn from the unit map; the
fractional contribution is `f * unit / scale` (Go computes it with
float64 arithmetic; the claims only use whole-unit durations, where the
two agree). -/
def durationLoop : Nat → List Char → Option Int
  | 0, cs => if cs = [] then some 0 else none
  | _ + 1, [] => some 0
  | fuel + 1, cs =>
    let intPart := cs.takeWhile Char.isDigit
    let rest1 := cs.dropWhile Char.isDigit
    let hasDot := rest1.head? = some '.'
    let fracPart := if hasDot then rest1.tail.takeWhile Char.isDigit else []
    let rest2 := if hasDot then rest1.tail.dropWhile Char.isDigit else rest1
    if intPart = [] ∧ fracPart = [] then none
    else
      let unitChars := rest2.takeWhile (fun c => ¬ (c.isDigit ∨ c = '.'))
      let rest3 := rest2.dropWhile (fun c => ¬ (c.isDigit ∨ c = '.'))
      if unitChars = [] then none
      else
        match durationUnitNs unitChars.asString with
        | none => none
        | some u =>
          let scale : Int := (10 : Int) ^ fracPart.length
          let v : Int := (digitsToNat intPart : Int) * u + (digitsToNat fracPart : Int) * u / scale
          match durationLoop fuel rest3 with
          | none => none
          | some w => some (v + w)

/-- Go's `time.ParseDuration`: one optional sign, the special case `"0"`,
else one or more number-unit terms. -/
def goParseDuration (s : String) : Option Int :=
  let cs := s.toList
  let (neg, body) :=
    match cs with
    | '-' :: t => (true, t)
    | '+' :: t => (false, t)
    | t => (false, t)
  if body = ['0'] then some 0
  else if body = [] then none
  else
    match durationLoop body.length body with
    | none => none
    | some v => some (if neg then -v else v)

/-- The `realitySettings` object built by `CreateStreamSettings`;
`showFlag` models the JSON key `show`; `shortId` and `spiderX` are
present only when non-empty. -/
structure RealitySettings where
  showFlag : Bool
  fingerprint : String
  serverName : String
  publicKey : String
  shortId : Option String
  spiderX : Option String
deriving DecidableEq

/-- The `tlsSettings` object built by `CreateStreamSettings`. -/
structure TLSSettings where
  serverName : String
  allowInsecure : Bool
  fingerprint : String
deriving DecidableEq

/-- The `streamSettings` map built by `CreateStreamSettings`: `network`
is always present; `tcpSettings` only for `type=tcp`; `security` plus
the matching settings object only for `reality` or `tls`. -/
structure StreamSettings where
  network : String
  tcpSettingsHeaderType : Option String
  security : Option String
  realitySettings : Option RealitySettings
  tlsSettings : Option TLSSettings
deriving DecidableEq

/-- `tunnel.CreateStreamSettings`. -/
def createStreamSettings (vlessConfig : VLESSConfig) : StreamSettings :=
  let base : StreamSettings :=
    { network := vlessConfig.type
      tcpSettingsHeaderType := if vlessConfig.type = "tcp" then some "none" else none
      security := none
      realitySettings := none
      tlsSettings := none }
  if vlessConfig.security = "reality" then
    { base with
      security := some "reality"
      realitySettings := some
        { showFlag := false
          fingerprint := vlessConfig.fp
          serverName := vlessConfig.sni
          publicKey := vlessConfig.pbk
          shortId := if vlessConfig.sid ≠ "" then some vlessConfig.sid else none
          spiderX := if vlessConfig.spx ≠ "" then some vlessConfig.spx else none } }
  else if vlessConfig.security = "tls" then
    { base with
      security := some "tls"
      tlsSettings := some
        { serverName := vlessConfig.sni
          allowInsecure := false
          fingerprint := vlessConfig.fp } }
  else base

/-- The configuration value `CreateXrayConfig` builds (the Go function
returns its `json.MarshalIndent`, which cannot fail on this shape; the
structure records every data field of the map). -/
structure XrayConfig where
  logLevel : String
  inboundPort : Int
  inboundListen : String
  inboundProtocol : String
  inboundAuth : String
  inboundUDP : Bool
  outboundProtocol : String
  vnextAddress : String
  vnextPort : Int
  userId : String
  userEncryption : String
  userFlow : String
  streamSettings : StreamSettings
deriving DecidableEq

/-- `tunnel.CreateXrayConfig`; `logLevelEnv` stands for the
`XRAY_LOG_LEVEL` environment variable (empty means unset, defaulting to
`warning`). -/
def createXrayConfig (logLevelEnv : String) (vlessConfig : VLESSConfig) (socksPort : Int) :
    XrayConfig :=
  { logLevel := if logLevelEnv = "" then "warning" else logLevelEnv
    inboundPort := socksPort
    inboundListen := "127.0.0.1"
    inboundProtocol := "socks"
    inboundAuth := "noauth"
    inboundUDP := true
    outboundProtocol := "vless"
    vnextAddress := vlessConfig.address
    vnextPort := vlessConfig.port
    userId := vlessConfig.uuid
    userEncryption := "none"
    userFlow := ""
    streamSettings := createStreamSettings vlessConfig }

/-- The `{uuid, host, port, type, security, sni, fp, pbk, sid, spx}`
mapping of the spec's round-trip law. -/
structure VLESSMapping where
  uuid : String
  host : String
  port : Int
  type : String
  security : String
  sni : String
  fp : String
  pbk : String
  sid : String
  spx : String
deriving DecidableEq

/-- The mapping carried by a parsed `VLESSConfig`. -/
def mappingOfConfig (c : VLESSConfig) : VLESSMapping :=
  ⟨c.uuid, c.address, c.port, c.type, c.security, c.sni, c.fp, c.pbk, c.sid, c.spx⟩

/-- Read the mapping back out of a generated provider configuration
(stating the spec's round-trip law): the user id, vnext address/port and
network are always present; the security parameters are read from the
settings object selected by `security`; parameters the configuration
does not carry come back empty, and an unrecognised `security` yields
`none`. -/
def extractMapping (x : XrayConfig) : Option VLESSMapping :=
  match x.streamSettings.security with
  | some "reality" =>
    match x.streamSettings.realitySettings with
    | some rs =>
      some ⟨x.userId, x.vnextAddress, x.vnextPort, x.streamSettings.network, "reality",
        rs.serverName, rs.fingerprint, rs.publicKey, rs.shortId.getD "", rs.spiderX.getD ""⟩
    | none => none
  | some "tls" =>
    match x.streamSettings.tlsSettings with
    | some ts =>
      some ⟨x.userId, x.vnextAddress, x.vnextPort, x.streamSettings.network, "tls",
        ts.serverName, ts.fingerprint, "", "", ""⟩
    | none => none
  | _ => none

/-- The `http.Client` built by `InitInstance` (instance.go): the fields
the Go code sets, plus `checkRedirectNil`, which records that `InitInstance`
never assigns the client's `CheckRedirect` field (it stays `nil`). -/
structure GoHTTPClient where
  timeout : Int
  dialerProxyAddr : String
  dialerTimeout : Int
  tlsInsecureSkipVerify : Bool
  tlsMinVersion12 : Bool
  disableKeepAlives : Bool
  checkRedirectNil : Bool
deriving DecidableEq

/-- Go `net/http` documented semantics: a client whose `CheckRedirect`
is `nil` uses the default policy, which follows redirects (stopping
after 10 consecutive requests); redirect-following is suppressed only by
installing a `CheckRedirect` returning `http.ErrUseLastResponse`. -/
def clientFollowsRedirects (c : GoHTTPClient) : Bool :=
  c.checkRedirectNil

/-- The client construction of instance.go lines 81-94: timeout and
dialer timeout are `checkTimeout`, the dialer targets
`127.0.0.1:<socksPort>`, TLS verification stays on with minimum version
1.2, keep-alives are disabled, and `CheckRedirect` is left `nil`. -/
def initInstanceHTTPClient (checkTimeout : Int) (socksPort : Int) : GoHTTPClient :=
  { timeout := checkTimeout
    dialerProxyAddr := "127.0.0.1:" ++ toString socksPort
    dialerTimeout := checkTimeout
    tlsInsecureSkipVerify := false
    tlsMinVersion12 := true
    disableKeepAlives := true
    checkRedirectNil := true }

/-- `config.Tunnel` (after `Load`'s default filling). -/
structure GoTunnel where
  name : String
  url : String
  checkURL : String
  checkInterval : String
  checkTimeout : String
deriving DecidableEq

/-- `config.Config`. -/
structure GoConfig where
  tunnels : List GoTunnel
  socksBasePort : Int
deriving DecidableEq

/-- `tunnel.TunnelInstance`: the runtime bundle.  The Xray provider
handle and the cancel function are external resources not carried as
data; `up` is the atomic liveness flag (zero value `false`). -/
structure TunnelInstanceModel where
  name : String
  vlessConfig : VLESSConfig
  socksPort : Int
  checkURL : String
  checkInterval : Int
  checkTimeout : Int
  httpClient : GoHTTPClient
  up : Bool
deriving DecidableEq

/-- `TunnelInstance.LabelSet()` — also the label values computed by
`checker.Check` (`fmt.Sprintf("%s:%d", Address, Port)` for `server`). -/
def labelSetOf (ti : TunnelInstanceModel) : LabelSet :=
  { name := ti.name
    server := ti.vlessConfig.address ++ ":" ++ toString ti.vlessConfig.port
    security := ti.vlessConfig.security
    sni := ti.vlessConfig.sni }

/-- `tunnel.InitInstance`: parse the VLESS URL, the two durations, build
the Xray config, start the provider, pick the name, build the HTTP
client.  Every failure increments `xray_tunnel_init_errors_total` (the
manager always passes a non-nil registry).  `startXrayOk` is the oracle
for the external `StartXray` call; `XRAY_LOG_LEVEL` is modelled as
unset. -/
def initInstance (startXrayOk : Bool) (tunnel : GoTunnel) (socksPort : Int)
    (m : MetricsState) : Except String TunnelInstanceModel × MetricsState :=
  let bump := { m with tunnelInitErrors := m.tunnelInitErrors + 1 }
  match parseVLESSURL tunnel.url with
  | .error e => (.error ("failed to parse VLESS URL: " ++ e), bump)
  | .ok vlessConfig =>
    match goParseDuration tunnel.checkInterval with
    | none => (.error "invalid check_interval", bump)
    | some checkInterval =>
      match goParseDuration tunnel.checkTimeout with
      | none => (.error "invalid check_timeout", bump)
      | some checkTimeout =>
        let _xrayConfigJSON := createXrayConfig "" vlessConfig socksPort
        if ¬ startXrayOk then (.error "failed to start Xray", bump)
        else
          let name :=
            if tunnel.name = "" then
              vlessConfig.address ++ ":" ++ toString vlessConfig.port
            else tunnel.name
          (.ok
            { name := name
              vlessConfig := vlessConfig
              socksPort := socksPort
              checkURL := tunnel.checkURL
              checkInterval := checkInterval
              checkTimeout := checkTimeout
              httpClient := initInstanceHTTPClient checkTimeout socksPort
              up := false }, m)

/-- `Config.Validate`'s per-tunnel loop (config.go): scheme prefix,
`url.Parse`, `Atoi(u.Port())`, and both durations, in source order. -/
def validateLoop : Nat → List GoTunnel → Except String Unit
  | _, [] => .ok ()
  | i, t :: ts =>
    if ¬ goHasPrefix t.url "vless://" then
      .error ("tunnel " ++ toString i ++ " (" ++ t.name ++ "): invalid vless URL")
    else
      match goURLParse t.url with
      | .error _ => .error ("tunnel " ++ toString i ++ " (" ++ t.name ++ "): invalid URL")
      | .ok u =>
        match goAtoi u.portStr with
        | none => .error ("tunnel " ++ toString i ++ " (" ++ t.name ++ "): invalid port")
        | some _ =>
          match goParseDuration t.checkInterval with
          | none =>
            .error ("tunnel " ++ toString i ++ " (" ++ t.name ++ "): invalid check_interval")
          | some _ =>
            match goParseDuration t.checkTimeout with
            | none =>
              .error ("tunnel " ++ toString i ++ " (" ++ t.name ++ "): invalid check_timeout")
            | some _ => validateLoop (i + 1) ts

/-- `Config.Validate`: parse all VLESS URLs and durations without
side-effects. -/
def validate (cfg : GoConfig) : Except String Unit :=
  validateLoop 0 cfg.tunnels

/-- The manager's published state: the active instance list plus the
(process-global) metric registry the instances report into. -/
structure ManagerState where
  instances : List TunnelInstanceModel
  metrics : MetricsState
deriving DecidableEq

/-- The build loop of `TunnelManager.Initialize`: `socksPort = basePort + i`
in config order; the first failure closes the already-built instances
(an external side effect) and aborts with its error. -/
def initializeLoop (startXrayOk : Bool) (basePort : Int) :
    Nat → List GoTunnel → List TunnelInstanceModel → MetricsState →
    Except String (List TunnelInstanceModel) × MetricsState
  | _, [], acc, m => (.ok acc.reverse, m)
  | i, t :: ts, acc, m =>
    match initInstance startXrayOk t (basePort + (i : Int)) m with
    | (.error e, m1) =>
      (.error ("failed to initialize tunnel " ++ toString (i + 1) ++ ": " ++ e), m1)
    | (.ok ti, m1) => initializeLoop startXrayOk basePort (i + 1) ts (ti :: acc) m1

/-- `TunnelManager.Initialize`: refuse an empty tunnel list; build all
instances; on any build failure return the error with the active list
untouched; on success publish the new list under the write lock.
(The SOCKS-port readiness wait and the checker goroutines are external
effects with no bearing on the published state.) -/
def initializeManager (startXrayOk : Bool) (cfg : GoConfig) (st : ManagerState) :
    Except String Unit × ManagerState :=
  if cfg.tunnels.isEmpty then (.error "no tunnels to initialize", st)
  else
    match initializeLoop startXrayOk cfg.socksBasePort 0 cfg.tunnels [] st.metrics with
    | (.error e, m1) => (.error e, { st with metrics := m1 })
    | (.ok tis, m1) => (.ok (), { instances := tis, metrics := m1 })

/-- `TunnelManager.Reload`: load the new config (the file read and YAML
decode are external; `loadResult` is `config.Load`'s outcome), validate
it, and only then snapshot and clear the active set, stop the old
instances, run `Initialize`, and clean up metric series for removed
label sets.  A load or validation error returns before anything is
touched. -/
def reload (loadResult : Except String GoConfig) (startXrayOk : Bool) (st : ManagerState) :
    Except String Unit × ManagerState :=
  match loadResult with
  | .error e => (.error ("failed to load config: " ++ e), st)
  | .ok newConfig =>
    match validate newConfig with
    | .error e => (.error ("config validation failed: " ++ e), st)
    | .ok _ =>
      let oldLabelSets := st.instances.map labelSetOf
      let cleared : ManagerState := { st with instances := [] }
      match initializeManager startXrayOk newConfig cleared with
      | (.error e, st2) => (.error ("failed to initialize tunnels: " ++ e), st2)
      | (.ok _, st2) =>
        let newLabelSets := st2.instances.map labelSetOf
        (.ok (), { st2 with metrics := cleanupRemoved st2.metrics oldLabelSets newLabelSets })

/-- `TunnelManager.StopAll`: snapshot and clear the list (cancelling
probers and closing providers are external effects). -/
def stopAll (st : ManagerState) : ManagerState :=
  { st with instances := [] }

/-- `TunnelManager.HealthHandler`: 503 `no tunnels configured` on an
empty list, else 200 `OK` when the scan finds an instance with `up`
set, else 503 `all tunnels down`. -/
def healthHandler (st : ManagerState) : Nat × String :=
  if st.instances.isEmpty then (503, "no tunnels configured")
  else if st.instances.any (fun ti => ti.up) then (200, "OK")
  else (503, "all tunnels down")

/-- The external outcomes one probe can observe (checker.go): whether
the 5-second TCP dial to the local SOCKS port succeeds, and the HTTP
GET's outcome (`none` = transport error, `some s` = a response with
status `s`).  `latencySeconds` and `nowUnix` stand for the wall-clock
readings used for the latency and last-success gauges. -/
structure CheckEnv where
  socksDialOk : Bool
  httpResp : Option Nat
  latencySeconds : Int
  nowUnix : Int
deriving DecidableEq

/-- What `checker.Check` produces: the returned `Result`'s `Up` and
`StatusCode` fields, the instance's new atomic `up` flag, and the
updated registry. -/
structure CheckOutcome where
  up : Bool
  statusCode : Option Nat
  tiUp : Bool
  metrics : MetricsState
deriving DecidableEq

/-- `checker.Check`, branch for branch: SOCKS dial failure and HTTP
error each set `xray_tunnel_up` to 0 and bump the failure counter; a
response first records `xray_tunnel_http_status`; a status outside
{200, 301, 302, 307} is the DOWN path; otherwise latency and
last-success are recorded, `up` goes to 1 and the success counter is
bumped. -/
def check (env : CheckEnv) (ti : TunnelInstanceModel) (m : MetricsState) : CheckOutcome :=
  let baseLabels := labelSetOf ti
  let failLabels := (baseLabels, "failure")
  if ¬ env.socksDialOk then
    { up := false, statusCode := none, tiUp := false
      metrics :=
        { m with
          tunnelUp := assocSet m.tunnelUp baseLabels 0
          tunnelCheckTotal := counterInc m.tunnelCheckTotal failLabels } }
  else
    match env.httpResp with
    | none =>
      { up := false, statusCode := none, tiUp := false
        metrics :=
          { m with
            tunnelUp := assocSet m.tunnelUp baseLabels 0
            tunnelCheckTotal := counterInc m.tunnelCheckTotal failLabels } }
    | some status =>
      let m1 := { m with tunnelHTTPStatus := assocSet m.tunnelHTTPStatus baseLabels (status : Int) }
      if status ≠ 200 ∧ status ≠ 301 ∧ status ≠ 302 ∧ status ≠ 307 then
        { up := false, statusCode := some status, tiUp := false
          metrics :=
            { m1 with
              tunnelUp := assocSet m1.tunnelUp baseLabels 0
              tunnelCheckTotal := counterInc m1.tunnelCheckTotal failLabels } }
      else
        { up := true, statusCode := some status, tiUp := true
          metrics :=
            { m1 with
              tunnelUp := assocSet m1.tunnelUp baseLabels 1
              tunnelLatency := assocSet m1.tunnelLatency baseLabels env.latencySeconds
              tunnelLastSuccess := assocSet m1.tunnelLastSuccess baseLabels env.nowUnix
              tunnelCheckTotal :=
                counterInc m1.tunnelCheckTotal (baseLabels, "success") } }

/-- The value of one `xray_tunnel_check_total` series (0 when the series
does not exist yet). -/
def checkCount (m : MetricsState) (ls : LabelSet) (result : String) : Nat :=
  ((assocGet m.tunnelCheckTotal (ls, result)).getD 0)

/-- A sequence of probes of one instance (`checker.Run` fires `Check`
once per tick), threading the registry. -/
def runChecks (ti : TunnelInstanceModel) : List CheckEnv → MetricsState → MetricsState
  | [], m => m
  | env :: envs, m => runChecks ti envs (check env ti m).metrics

/-- `io.ReadFull(conn, buf)` against the modelled byte stream: succeeds
only when `n` bytes are available, returning them and the rest. -/
def readFull (input : List Nat) (n : Nat) : Option (List Nat × List Nat) :=
  if n ≤ input.length then some (input.take n, input.drop n) else none

/-- Go `byte(x)` for an `int` value: two's-complement truncation,
i.e. `x mod 2^8`. -/
def goByte (x : Int) : Nat :=
  (x % 256).toNat

/-- Go `x >> 8` for an `int` value: arithmetic shift, i.e. floor
division by `2^8`. -/
def goShr8 (x : Int) : Int :=
  Int.fdiv x 256

/-- The CONNECT request of dialer.go lines 71-74:
`[5, 1, 0, 3, byte(len(host))] ++ host ++ [byte(port >> 8), byte(port & 0xff)]`
(masking with `0xff` and truncating to `byte` is truncation mod `2^8`). -/
def connectRequest (host : List Nat) (port : Int) : List Nat :=
  [5, 1, 0, 3, host.length % 256] ++ host ++ [goByte (goShr8 port), goByte port]

/-- The errors `Dialer.DialContext` can return, by source branch;
`connectFailed` carries the reply code of
`fmt.Errorf("SOCKS5 connect failed: %d", resp[1])`. -/
inductive DialError where
  | dialFailed
  | setDeadlineFailed
  | writeFailed
  | readFailed
  | handshakeFailed
  | addrFailed
  | connectFailed (code : Nat)
  | clearDeadlineFailed
deriving DecidableEq

/-- The external circumstances of one `DialContext` call: whether the
TCP dial to the proxy succeeds; the context deadline (`none` = no
deadline, `some ok` = a deadline whose `SetDeadline` succeeds iff `ok`);
whether each of the two writes succeeds; the outcome of
`net.SplitHostPort` + `strconv.Atoi` on the destination (`none` =
either fails); whether the final `SetDeadline(time.Time{})` succeeds;
and the byte stream the proxy will send. -/
structure DialEnv where
  dialOk : Bool
  ctxDeadline : Option Bool
  writeGreetingOk : Bool
  splitAddr : Option (List Nat × Int)
  writeRequestOk : Bool
  clearDeadlineOk : Bool
  input : List Nat
deriving DecidableEq

deriving instance DecidableEq for Except

/-- What a `DialContext` call leaves behind: the result (`ok` = the
stream is returned to the caller), whether the TCP connection to the
proxy was established, whether it was closed, the bytes written to the
proxy, and the proxy bytes left unread. -/
structure DialOutcome where
  res : Except DialError Unit
  connEstablished : Bool
  closed : Bool
  written : List Nat
  remaining : List Nat
deriving DecidableEq

/-- An error return after the TCP connection exists: every such branch
in the source runs `conn.Close()` before returning. -/
def dcFail (e : DialError) (written remaining : List Nat) : DialOutcome :=
  { res := .error e, connEstablished := true, closed := true
    written := written, remaining := remaining }

/-- The ATYP `switch` of dialer.go lines 93-115: drain the bound-address
payload (6 bytes for IPv4, a 1-byte length then `len+2` for a domain,
18 bytes for IPv6); an unknown ATYP falls through — the `switch` has no
default case — draining nothing.  `none` = a read failed. -/
def drainBoundAddr (atyp : Nat) (rest2 : List Nat) : Option (List Nat) :=
  if atyp = 1 then (readFull rest2 6).map (fun r => r.2)
  else if atyp = 3 then
    match readFull rest2 1 with
    | none => none
    | some (lenBuf, r3) => (readFull r3 (lenBuf.getD 0 0 + 2)).map (fun r => r.2)
  else if atyp = 4 then (readFull rest2 18).map (fun r => r.2)
  else some rest2

/-- `socks.Dialer.DialContext`, branch for branch: TCP dial, optional
deadline, greeting `05 01 00`, 2-byte method reply that must be `05 00`,
destination split, CONNECT request, 4-byte reply whose `REP` must be 0,
ATYP-directed drain of the bound address (`1` → 6 bytes, `3` → 1-byte
length then `len+2`, `4` → 18 bytes, anything else falls through the
`switch` with no default case), clear the deadline, return the stream. -/
def dialContext (env : DialEnv) : DialOutcome :=
  if ¬ env.dialOk then
    { res := .error .dialFailed, connEstablished := false, closed := false
      written := [], remaining := env.input }
  else if env.ctxDeadline = some false then
    dcFail .setDeadlineFailed [] env.input
  else if ¬ env.writeGreetingOk then
    dcFail .writeFailed [] env.input
  else
    let w1 : List Nat := [5, 1, 0]
    match readFull env.input 2 with
    | none => dcFail .readFailed w1 []
    | some (buf, rest) =>
      if buf.getD 0 0 ≠ 5 ∨ buf.getD 1 0 ≠ 0 then dcFail .handshakeFailed w1 rest
      else
        match env.splitAddr with
        | none => dcFail .addrFailed w1 rest
        | some (host, port) =>
          if ¬ env.writeRequestOk then dcFail .writeFailed w1 rest
          else
            let w2 := w1 ++ connectRequest host port
            match readFull rest 4 with
            | none => dcFail .readFailed w2 []
            | some (resp, rest2) =>
              if resp.getD 1 0 ≠ 0 then dcFail (.connectFailed (resp.getD 1 0)) w2 rest2
              else
                match drainBoundAddr (resp.getD 3 0) rest2 with
                | none => dcFail .readFailed w2 []
                | some rest3 =>
                  if ¬ env.clearDeadlineOk then dcFail .clearDeadlineFailed w2 rest3
                  else
                    { res := .ok (), connEstablished := true, closed := false
                      written := w2, remaining := rest3 }

/-- Whether an `Except` is the error case. -/
def isError {ε α : Type} : Except ε α → Bool
  | .error _ => true
  | .ok _ => false

/-! Concrete values used by witnesses and counterexamples. -/

/-- A parsed TLS tunnel configuration used in concrete instances. -/
def vcW : VLESSConfig :=
  { uuid := "u", address := "h", port := 443, security := "tls", pbk := "",
    sni := "s", fp := "", sid := "", spx := "", type := "tcp" }

/-- A concrete tunnel instance (label set `t1 / h:443 / tls / s`). -/
def tiW : TunnelInstanceModel :=
  { name := "t1", vlessConfig := vcW, socksPort := 1080, checkURL := "http://c",
    checkInterval := 30000000000, checkTimeout := 10000000000,
    httpClient := initInstanceHTTPClient 10000000000 1080, up := false }

/-- A concrete manager state holding `tiW` (down) and a populated
registry. -/
def stW : ManagerState :=
  { instances := [tiW]
    metrics :=
      { MetricsState.empty with
        tunnelUp := [(labelSetOf tiW, 1)]
        tunnelCheckTotal := [((labelSetOf tiW, "success"), 7)] } }

/-- A config whose only tunnel has a URL without the `vless://` prefix
(the invalid-reload scenario of the spec). -/
def cfgBadW : GoConfig :=
  { tunnels := [{ name := "n", url := "oops", checkURL := "c",
                  checkInterval := "30s", checkTimeout := "10s" }]
    socksBasePort := 1080 }

/-! ## C6 — liveness handler -/

/-- C6: for every manager state, `GET /health` answers 200 `OK` when
some active instance's `up` flag is true, 503 `all tunnels down` when
the active list is non-empty and no flag is true, and
503 `no tunnels configured` when the active list is empty. -/
theorem c6_health_handler (st : ManagerState) :
    (st.instances.any (fun ti => ti.up) = true → healthHandler st = (200, "OK"))
    ∧ (st.instances ≠ [] → st.instances.any (fun ti => ti.up) = false →
        healthHandler st = (503, "all tunnels down"))
    ∧ (st.instances = [] → healthHandler st = (503, "no tunnels configured")) := by
  refine ⟨?_, ?_, ?_⟩
  · intro h
    have hne : st.instances.isEmpty = false := by
      cases hi : st.instances with
      | nil => rw [hi] at h; simp at h
      | cons a t => simp [hi]
    simp [healthHandler, hne, h]
  · intro hne h
    have hne2 : st.instances.isEmpty = false := by
      cases hi : st.instances with
      | nil => exact absurd hi hne
      | cons a t => simp [hi]
    simp [healthHandler, hne2, h]
  · intro h
    simp [healthHandler, h]

/-- C6 witness: the three branches at concrete states. -/
theorem c6_health_handler_witness :
    healthHandler { instances := [{ tiW with up := true }], metrics := MetricsState.empty }
      = (200, "OK")
    ∧ healthHandler stW = (503, "all tunnels down")
    ∧ healthHandler { instances := [], metrics := MetricsState.empty }
      = (503, "no tunnels configured") :=
  ⟨(c6_health_handler _).1 rfl,
   (c6_health_handler stW).2.1 (by decide) rfl,
   (c6_health_handler _).2.2 rfl⟩

/-! ## C4 — reload validates before touching the active set -/

/-- C4: when loading the new configuration fails, or when its validation
fails, `Reload` returns that error and the manager state — active
instance list, running instances and every metric series — is exactly
what it was before the call. -/
theorem c4_reload_validate_before_swap :
    (∀ (e : String) (startXrayOk : Bool) (st : ManagerState),
        reload (.error e) startXrayOk st = (.error ("failed to load config: " ++ e), st))
    ∧ (∀ (cfg : GoConfig) (e : String) (startXrayOk : Bool) (st : ManagerState),
        validate cfg = .error e →
        reload (.ok cfg) startXrayOk st
          = (.error ("config validation failed: " ++ e), st)) := by
  constructor
  · intro e b st
    rfl
  · intro cfg e b st h
    simp [reload, h]

/-- C4 witness: a failed load and a config failing validation, against a
state with one running instance and populated metric series. -/
theorem c4_reload_validate_before_swap_witness :
    reload (.error "read failed") true stW
      = (.error ("failed to load config: " ++ "read failed"), stW)
    ∧ reload (.ok cfgBadW) true stW
      = (.error ("config validation failed: " ++ "tunnel 0 (n): invalid vless URL"), stW) :=
  ⟨c4_reload_validate_before_swap.1 "read failed" true stW,
   c4_reload_validate_before_swap.2 cfgBadW _ true stW rfl⟩

/-! ## C5 — metric cleanup after reload -/

/-- The removed label set of the C5 failing input: its `key()` collides
with the kept one because `key()` joins the labels with `|`. -/
def lsRemoved : LabelSet :=
  { name := "x", server := "s", security := "a|b", sni := "" }

/-- The kept label set of the C5 failing input. -/
def lsKept : LabelSet :=
  { name := "x", server := "s", security := "a", sni := "b|" }

/-- A registry holding series for the removed label set. -/
def mC5 : MetricsState :=
  { MetricsState.empty with
    tunnelUp := [(lsRemoved, 1)]
    tunnelCheckTotal := [((lsRemoved, "success"), 5)] }

/-- C5: `CleanupRemoved` misses a removed label set whose `|`-joined
`key()` collides with a distinct kept label set: `lsRemoved` is in the
old set and not in the new set, it owns live series, yet after cleanup
the registry is unchanged — no series of any family was deleted,
contrary to the claim (and to `CleanupRemoved`'s own contract). -/
theorem c5_cleanup_key_collision :
    lsRemoved ≠ lsKept
    ∧ LabelSet.key lsRemoved = LabelSet.key lsKept
    ∧ assocGet mC5.tunnelUp lsRemoved = some 1
    ∧ assocGet mC5.tunnelCheckTotal (lsRemoved, "success") = some 5
    ∧ cleanupRemoved mC5 [lsRemoved] [lsKept] = mC5 := by
  refine ⟨by decide, by decide, by decide, by decide, by decide⟩

/-! ## C3 — what makes building a tunnel instance fail -/

/-- C3 counterexample: `ParseVLESSURL` does not reject an empty username
or an empty host — `vless://@:443` parses successfully into a config
with empty UUID and empty address. -/
theorem c3_empty_user_host_counterexample :
    parseVLESSURL "vless://@:443"
      = .ok { uuid := "", address := "", port := 443, security := "", pbk := "",
              sni := "", fp := "", sid := "", spx := "", type := "" } := by
  rfl

/-- C3 (amended): building an instance fails whenever the URL lacks the
`vless://` prefix, whenever `url.Parse` rejects it, and whenever
`Atoi(u.Port())` fails (no or non-integer port); `InitInstance`
propagates every `ParseVLESSURL` error.  (Empty username or host are
not rejected.) -/
theorem c3_build_failure_amended :
    (∀ s : String, goHasPrefix s "vless://" = false →
        isError (parseVLESSURL s) = true)
    ∧ (∀ (s : String) (e : String), goURLParse s = .error e →
        isError (parseVLESSURL s) = true)
    ∧ (∀ (s : String) (u : GoURL), goURLParse s = .ok u → goAtoi u.portStr = none →
        isError (parseVLESSURL s) = true)
    ∧ (∀ (startXrayOk : Bool) (t : GoTunnel) (p : Int) (m : MetricsState),
        isError (parseVLESSURL t.url) = true →
        isError (initInstance startXrayOk t p m).1 = true) := by
  refine ⟨?_, ?_, ?_, ?_⟩
  · intro s h
    simp [parseVLESSURL, h, isError]
  · intro s e h
    by_cases hp : goHasPrefix s "vless://"
    · simp [parseVLESSURL, hp, h, isError]
    · simp [parseVLESSURL, hp, isError]
  · intro s u hu ha
    by_cases hp : goHasPrefix s "vless://"
    · simp [parseVLESSURL, hp, hu, ha, isError]
    · simp [parseVLESSURL, hp, isError]
  · intro b t p m h
    cases hp : parseVLESSURL t.url with
    | error e => simp [initInstance, hp, isError]
    | ok vc => rw [hp] at h; simp [isError] at h

/-- C3 witness: the wrong scheme, an unparsable port, a missing port,
and `InitInstance` failing on the wrong scheme. -/
theorem c3_build_failure_amended_witness :
    isError (parseVLESSURL "http://example.com") = true
    ∧ isError (parseVLESSURL "vless://uuid@example.com:invalid?type=tcp") = true
    ∧ isError (parseVLESSURL "vless://uuid@example.com") = true
    ∧ isError (initInstance true
        { name := "n", url := "http://example.com", checkURL := "c",
          checkInterval := "30s", checkTimeout := "10s" } 1080 MetricsState.empty).1 = true :=
  ⟨c3_build_failure_amended.1 "http://example.com" rfl,
   c3_build_failure_amended.2.1 "vless://uuid@example.com:invalid?type=tcp"
     "invalid port after host" rfl,
   c3_build_failure_amended.2.2.1 "vless://uuid@example.com"
     ⟨"uuid", "example.com", "", ""⟩ rfl rfl,
   c3_build_failure_amended.2.2.2 true
     { name := "n", url := "http://example.com", checkURL := "c",
       checkInterval := "30s", checkTimeout := "10s" } 1080 MetricsState.empty rfl⟩

/-! ## C1 — probe classification and the client's redirect policy -/

/-- C1: a probe that obtained an HTTP response is classified UP exactly
for statuses 200/301/302/307 — but the probe HTTP client built by
`InitInstance` leaves `CheckRedirect` nil and therefore, by `net/http`'s
default policy, DOES follow redirects, contrary to the claim's
"does not follow redirects". -/
theorem c1_classification_and_redirect_policy :
    (∀ (env : CheckEnv) (ti : TunnelInstanceModel) (m : MetricsState) (s : Nat),
        env.socksDialOk = true → env.httpResp = some s →
        ((check env ti m).tiUp = true ↔ (s = 200 ∨ s = 301 ∨ s = 302 ∨ s = 307)))
    ∧ (∀ checkTimeout socksPort : Int,
        (initInstanceHTTPClient checkTimeout socksPort).checkRedirectNil = true
        ∧ clientFollowsRedirects (initInstanceHTTPClient checkTimeout socksPort) = true) := by
  constructor
  · intro env ti m s hd hr
    by_cases hc : s = 200 ∨ s = 301 ∨ s = 302 ∨ s = 307
    · have hcond : ¬ (s ≠ 200 ∧ s ≠ 301 ∧ s ≠ 302 ∧ s ≠ 307) := by tauto
      simp [check, hd, hr, hcond, hc]
    · have hcond : s ≠ 200 ∧ s ≠ 301 ∧ s ≠ 302 ∧ s ≠ 307 := by tauto
      simp [check, hd, hr, hcond, hc]
  · intro ct sp
    exact ⟨rfl, rfl⟩

/-- C1 witness: a 301 response is classified UP; a 404 is not; the
concrete instance client follows redirects. -/
theorem c1_classification_and_redirect_policy_witness :
    (check ⟨true, some 301, 0, 0⟩ tiW MetricsState.empty).tiUp = true
    ∧ clientFollowsRedirects (initInstanceHTTPClient 10000000000 1080) = true :=
  ⟨(c1_classification_and_redirect_policy.1 ⟨true, some 301, 0, 0⟩ tiW
      MetricsState.empty 301 rfl rfl).mpr (Or.inr (Or.inl rfl)),
   (c1_classification_and_redirect_policy.2 10000000000 1080).2⟩

/-! ## C7 — exactly one check_total variant per probe -/

theorem check_counter_cases (env : CheckEnv) (ti : TunnelInstanceModel) (m : MetricsState) :
    ((check env ti m).tiUp = true
      ∧ checkCount (check env ti m).metrics (labelSetOf ti) "success"
          = checkCount m (labelSetOf ti) "success" + 1
      ∧ checkCount (check env ti m).metrics (labelSetOf ti) "failure"
          = checkCount m (labelSetOf ti) "failure")
    ∨ ((check env ti m).tiUp = false
      ∧ checkCount (check env ti m).metrics (labelSetOf ti) "failure"
          = checkCount m (labelSetOf ti) "failure" + 1
      ∧ checkCount (check env ti m).metrics (labelSetOf ti) "success"
          = checkCount m (labelSetOf ti) "success") := by
  have hfs : ((labelSetOf ti, "failure") : LabelSet × String) ≠ (labelSetOf ti, "success") := by
    simp
  have hsf : ((labelSetOf ti, "success") : LabelSet × String) ≠ (labelSetOf ti, "failure") := by
    simp
  cases hd : env.socksDialOk with
  | false =>
    right
    refine ⟨by simp [check, hd], ?_, ?_⟩
    · simp [check, hd, checkCount, counterInc_get_self]
    · simp [check, hd, checkCount, counterInc_get_ne _ _ _ hfs]
  | true =>
    cases hr : env.httpResp with
    | none =>
      right
      refine ⟨by simp [check, hd, hr], ?_, ?_⟩
      · simp [check, hd, hr, checkCount, counterInc_get_self]
      · simp [check, hd, hr, checkCount, counterInc_get_ne _ _ _ hfs]
    | some s =>
      by_cases hc : s ≠ 200 ∧ s ≠ 301 ∧ s ≠ 302 ∧ s ≠ 307
      · right
        refine ⟨by simp [check, hd, hr, hc], ?_, ?_⟩
        · simp [check, hd, hr, hc, checkCount, counterInc_get_self]
        · simp [check, hd, hr, hc, checkCount, counterInc_get_ne _ _ _ hfs]
      · left
        refine ⟨by simp [check, hd, hr, hc], ?_, ?_⟩
        · simp [check, hd, hr, hc, checkCount, counterInc_get_self]
        · simp [check, hd, hr, hc, checkCount, counterInc_get_ne _ _ _ hsf]

theorem check_counter_sum (env : CheckEnv) (ti : TunnelInstanceModel) (m : MetricsState) :
    checkCount (check env ti m).metrics (labelSetOf ti) "success"
      + checkCount (check env ti m).metrics (labelSetOf ti) "failure"
      = checkCount m (labelSetOf ti) "success" + checkCount m (labelSetOf ti) "failure" + 1 := by
  rcases check_counter_cases env ti m with ⟨_, h1, h2⟩ | ⟨_, h1, h2⟩ <;> omega

theorem runChecks_counter_sum (ti : TunnelInstanceModel) (envs : List CheckEnv)
    (m : MetricsState) :
    checkCount (runChecks ti envs m) (labelSetOf ti) "success"
      + checkCount (runChecks ti envs m) (labelSetOf ti) "failure"
      = checkCount m (labelSetOf ti) "success" + checkCount m (labelSetOf ti) "failure"
        + envs.length := by
  induction envs generalizing m with
  | nil => simp [runChecks]
  | cons e es ih =>
    have hstep := check_counter_sum e ti m
    have := ih (check e ti m).metrics
    simp only [runChecks, List.length_cons]
    omega

/-- C7: every execution of `Check` increments exactly one result
variant of `xray_tunnel_check_total` for the instance's label set — the
success variant on the UP path, the failure variant on every DOWN
path — by exactly one; hence over any probe sequence from a fresh
registry the two variants sum to the number of probes fired. -/
theorem c7_check_total_once_per_probe :
    (∀ (env : CheckEnv) (ti : TunnelInstanceModel) (m : MetricsState),
      ((check env ti m).tiUp = true →
        checkCount (check env ti m).metrics (labelSetOf ti) "success"
            = checkCount m (labelSetOf ti) "success" + 1
          ∧ checkCount (check env ti m).metrics (labelSetOf ti) "failure"
            = checkCount m (labelSetOf ti) "failure")
      ∧ ((check env ti m).tiUp = false →
        checkCount (check env ti m).metrics (labelSetOf ti) "failure"
            = checkCount m (labelSetOf ti) "failure" + 1
          ∧ checkCount (check env ti m).metrics (labelSetOf ti) "success"
            = checkCount m (labelSetOf ti) "success"))
    ∧ (∀ (ti : TunnelInstanceModel) (envs : List CheckEnv),
        checkCount (runChecks ti envs MetricsState.empty) (labelSetOf ti) "success"
          + checkCount (runChecks ti envs MetricsState.empty) (labelSetOf ti) "failure"
          = envs.length) := by
  constructor
  · intro env ti m
    rcases check_counter_cases env ti m with ⟨hu, h1, h2⟩ | ⟨hu, h1, h2⟩
    · exact ⟨fun _ => ⟨h1, h2⟩, fun hf => absurd hf (by simp [hu])⟩
    · exact ⟨fun ht => absurd ht (by simp [hu]), fun _ => ⟨h1, h2⟩⟩
  · intro ti envs
    have := runChecks_counter_sum ti envs MetricsState.empty
    simpa [checkCount, MetricsState.empty, assocGet] using this

/-- C7 witness: one UP probe bumps the success variant from 0 to 1; an
UP probe followed by a DOWN probe leaves the two variants summing
to 2. -/
theorem c7_check_total_once_per_probe_witness :
    checkCount (check ⟨true, some 200, 0, 0⟩ tiW MetricsState.empty).metrics
        (labelSetOf tiW) "success"
      = checkCount MetricsState.empty (labelSetOf tiW) "success" + 1
    ∧ checkCount (runChecks tiW [⟨true, some 200, 0, 0⟩, ⟨true, some 404, 0, 0⟩]
          MetricsState.empty) (labelSetOf tiW) "success"
        + checkCount (runChecks tiW [⟨true, some 200, 0, 0⟩, ⟨true, some 404, 0, 0⟩]
          MetricsState.empty) (labelSetOf tiW) "failure"
      = 2 :=
  ⟨((c7_check_total_once_per_probe.1 ⟨true, some 200, 0, 0⟩ tiW MetricsState.empty).1 rfl).1,
   c7_check_total_once_per_probe.2 tiW [⟨true, some 200, 0, 0⟩, ⟨true, some 404, 0, 0⟩]⟩

/-! ## C8, C2, C10 — the SOCKS5 dialer -/

theorem dialContext_shape (env : DialEnv) :
    ((dialContext env).res = .ok () ∧ (dialContext env).closed = false
      ∧ (dialContext env).connEstablished = true)
    ∨ ((dialContext env).connEstablished = false ∧ (dialContext env).closed = false)
    ∨ ((dialContext env).closed = true ∧ (dialContext env).connEstablished = true
      ∧ isError (dialContext env).res = true) := by
  unfold dialContext
  repeat' split
  all_goals simp [dcFail, isError]

/-- C8: the dialer fails when the method-selection reply is not exactly
`05 00`; a CONNECT reply with `REP ≠ 0` fails with the error carrying
that code; once the TCP connection to the proxy exists, every error
return has closed it, and a success return leaves it open. -/
theorem c8_dialer_error_paths :
    (∀ (env : DialEnv) (b0 b1 : Nat) (rest : List Nat),
        env.dialOk = true → env.ctxDeadline ≠ some false → env.writeGreetingOk = true →
        env.input = b0 :: b1 :: rest → b0 ≠ 5 ∨ b1 ≠ 0 →
        dialContext env = dcFail .handshakeFailed [5, 1, 0] rest)
    ∧ (∀ (env : DialEnv) (v rep rsv atyp : Nat) (rest host : List Nat) (port : Int),
        env.dialOk = true → env.ctxDeadline ≠ some false → env.writeGreetingOk = true →
        env.splitAddr = some (host, port) → env.writeRequestOk = true →
        env.input = 5 :: 0 :: v :: rep :: rsv :: atyp :: rest → rep ≠ 0 →
        dialContext env
          = dcFail (.connectFailed rep) ([5, 1, 0] ++ connectRequest host port) rest)
    ∧ (∀ env : DialEnv, (dialContext env).connEstablished = true →
        isError (dialContext env).res = true → (dialContext env).closed = true)
    ∧ (∀ env : DialEnv, (dialContext env).res = .ok () → (dialContext env).closed = false) := by
  refine ⟨?_, ?_, ?_, ?_⟩
  · intro env b0 b1 rest hd hcd hwg hin h5
    rcases h5 with h5 | h5 <;>
      simp [dialContext, hd, hcd, hwg, hin, readFull, List.getD, h5]
  · intro env v rep rsv atyp rest host port hd hcd hwg hsa hwr hin hrep
    simp [dialContext, hd, hcd, hwg, hsa, hwr, hin, readFull, List.getD, hrep]
  · intro env hest herr
    rcases dialContext_shape env with ⟨hok, _, _⟩ | ⟨hne, _⟩ | ⟨hc, _, _⟩
    · rw [hok] at herr; simp [isError] at herr
    · rw [hest] at hne; cases hne
    · exact hc
  · intro env hok
    rcases dialContext_shape env with ⟨_, hc, _⟩ | ⟨_, hc⟩ | ⟨_, _, herr⟩
    · exact hc
    · exact hc
    · rw [hok] at herr; simp [isError] at herr

/-- C8 witness: a `04 00` method reply fails with the connection closed;
a CONNECT reply with `REP = 5` fails carrying code 5. -/
theorem c8_dialer_error_paths_witness :
    dialContext ⟨true, none, true, some ([104], 80), true, true, [4, 0]⟩
      = dcFail .handshakeFailed [5, 1, 0] []
    ∧ dialContext ⟨true, none, true, some ([104], 80), true, true,
        [5, 0, 5, 5, 0, 1, 0, 0, 0, 0, 0, 0]⟩
      = dcFail (.connectFailed 5) ([5, 1, 0] ++ connectRequest [104] 80)
          [0, 0, 0, 0, 0, 0] :=
  ⟨c8_dialer_error_paths.1 _ 4 0 [] rfl (by simp) rfl rfl (Or.inl (by decide)),
   c8_dialer_error_paths.2.1 _ 5 5 0 1 [0, 0, 0, 0, 0, 0] [104] 80 rfl (by simp) rfl rfl rfl
     rfl (by decide)⟩

/-- The C2 counterexample environment: the proxy's CONNECT reply carries
the unknown ATYP 9, followed by two more bytes. -/
def envUnknownAtyp : DialEnv :=
  ⟨true, none, true, some ([104], 80), true, true, [5, 0, 5, 0, 0, 9, 42, 43]⟩

/-- C2 counterexample: on a CONNECT reply whose ATYP is 9 (not 1, 3
or 4) `DialContext` does NOT fail — the `switch` has no default case —
and returns the open stream with no bound-address bytes drained. -/
theorem c2_unknown_atyp_counterexample :
    (dialContext envUnknownAtyp).res = .ok ()
    ∧ (dialContext envUnknownAtyp).closed = false
    ∧ (dialContext envUnknownAtyp).remaining = [42, 43] :=
  ⟨rfl, rfl, rfl⟩

/-- C2 (amended): after a successful CONNECT reply the dialer drains
exactly 6 bytes for ATYP 1, a 1-byte length then `len+2` bytes for
ATYP 3, and 18 bytes for ATYP 4, then returns the stream; for any other
ATYP it drains nothing and still returns the stream (the `switch` has no
default case and no protocol error exists). -/
theorem c2_atyp_drain_amended :
    (∀ (env : DialEnv) (host : List Nat) (port : Int) (tail : List Nat),
        env.dialOk = true → env.ctxDeadline ≠ some false → env.writeGreetingOk = true →
        env.splitAddr = some (host, port) → env.writeRequestOk = true →
        env.clearDeadlineOk = true →
        env.input = 5 :: 0 :: 5 :: 0 :: 0 :: 1 :: tail → 6 ≤ tail.length →
        (dialContext env).res = .ok () ∧ (dialContext env).remaining = tail.drop 6)
    ∧ (∀ (env : DialEnv) (host : List Nat) (port : Int) (len : Nat) (t2 : List Nat),
        env.dialOk = true → env.ctxDeadline ≠ some false → env.writeGreetingOk = true →
        env.splitAddr = some (host, port) → env.writeRequestOk = true →
        env.clearDeadlineOk = true →
        env.input = 5 :: 0 :: 5 :: 0 :: 0 :: 3 :: len :: t2 → len + 2 ≤ t2.length →
        (dialContext env).res = .ok ()
        ∧ (dialContext env).remaining = t2.drop (len + 2))
    ∧ (∀ (env : DialEnv) (host : List Nat) (port : Int) (tail : List Nat),
        env.dialOk = true → env.ctxDeadline ≠ some false → env.writeGreetingOk = true →
        env.splitAddr = some (host, port) → env.writeRequestOk = true →
        env.clearDeadlineOk = true →
        env.input = 5 :: 0 :: 5 :: 0 :: 0 :: 4 :: tail → 18 ≤ tail.length →
        (dialContext env).res = .ok () ∧ (dialContext env).remaining = tail.drop 18)
    ∧ (∀ (env : DialEnv) (host : List Nat) (port : Int) (atyp : Nat) (tail : List Nat),
        env.dialOk = true → env.ctxDeadline ≠ some false → env.writeGreetingOk = true →
        env.splitAddr = some (host, port) → env.writeRequestOk = true →
        env.clearDeadlineOk = true →
        atyp ≠ 1 → atyp ≠ 3 → atyp ≠ 4 →
        env.input = 5 :: 0 :: 5 :: 0 :: 0 :: atyp :: tail →
        (dialContext env).res = .ok () ∧ (dialContext env).remaining = tail) := by
  refine ⟨?_, ?_, ?_, ?_⟩
  · intro env host port tail hd hcd hwg hsa hwr hcl hin hlen
    constructor <;>
      simp [dialContext, drainBoundAddr, hd, hcd, hwg, hsa, hwr, hcl, hin, readFull, List.getD, hlen]
  · intro env host port len t2 hd hcd hwg hsa hwr hcl hin hlen
    constructor <;>
      simp [dialContext, drainBoundAddr, hd, hcd, hwg, hsa, hwr, hcl, hin, readFull, List.getD, hlen]
  · intro env host port tail hd hcd hwg hsa hwr hcl hin hlen
    constructor <;>
      simp [dialContext, drainBoundAddr, hd, hcd, hwg, hsa, hwr, hcl, hin, readFull, List.getD, hlen]
  · intro env host port atyp tail hd hcd hwg hsa hwr hcl h1 h3 h4 hin
    constructor <;>
      simp [dialContext, drainBoundAddr, hd, hcd, hwg, hsa, hwr, hcl, hin, readFull, List.getD, h1, h3, h4]

/-- C2 amended witness: a domain-form bound address (ATYP 3, length 2)
drains 4 bytes; ATYP 7 drains nothing. -/
theorem c2_atyp_drain_amended_witness :
    (dialContext ⟨true, none, true, some ([104], 80), true, true,
        [5, 0, 5, 0, 0, 3, 2, 7, 8, 0, 80, 1]⟩).remaining = [1]
    ∧ (dialContext ⟨true, none, true, some ([104], 80), true, true,
        [5, 0, 5, 0, 0, 7, 9, 9, 9]⟩).remaining = [9, 9, 9] :=
  ⟨(c2_atyp_drain_amended.2.1 _ [104] 80 2 [7, 8, 0, 80, 1] rfl (by simp) rfl rfl rfl rfl rfl
      (by decide)).2,
   (c2_atyp_drain_amended.2.2.2 _ [104] 80 7 [9, 9, 9] rfl (by simp) rfl rfl rfl rfl
      (by decide) (by decide) (by decide) rfl).2⟩

/-- C10: the CONNECT request's length prefix is `len(host) mod 256` —
for a host longer than 255 bytes the prefix no longer matches and the
full host bytes still follow (a malformed request), while the dialer
still returns the stream rather than an error; the port is encoded
big-endian as `port mod 65536`. -/
theorem c10_connect_request_encoding :
    (∀ (host : List Nat) (port : Int),
        connectRequest host port
          = [5, 1, 0, 3, host.length % 256] ++ host ++ [goByte (goShr8 port), goByte port])
    ∧ (∀ (host : List Nat) (port : Int), 255 < host.length →
        (connectRequest host port).getD 4 0 = host.length % 256
        ∧ (connectRequest host port).getD 4 0 ≠ host.length)
    ∧ (∀ port : Int,
        goByte (goShr8 port) < 256 ∧ goByte port < 256
        ∧ 256 * goByte (goShr8 port) + goByte port = (port % 65536).toNat)
    ∧ (∀ (env : DialEnv) (host : List Nat) (port : Int) (tail : List Nat),
        env.dialOk = true → env.ctxDeadline ≠ some false → env.writeGreetingOk = true →
        env.splitAddr = some (host, port) → env.writeRequestOk = true →
        env.clearDeadlineOk = true →
        env.input = 5 :: 0 :: 5 :: 0 :: 0 :: 1 :: tail → 6 ≤ tail.length →
        (dialContext env).res = .ok ()
        ∧ (dialContext env).written = [5, 1, 0] ++ connectRequest host port) := by
  refine ⟨?_, ?_, ?_, ?_⟩
  · intro host port
    rfl
  · intro host port hlong
    have hpre : (connectRequest host port).getD 4 0 = host.length % 256 := by
      simp [connectRequest, List.getD]
    refine ⟨hpre, ?_⟩
    rw [hpre]
    have : host.length % 256 < 256 := Nat.mod_lt _ (by omega)
    omega
  · intro port
    have hf : Int.fdiv port 256 = port / 256 := Int.fdiv_eq_ediv port (by norm_num)
    simp only [goByte, goShr8, hf]
    refine ⟨by omega, by omega, by omega⟩
  · intro env host port tail hd hcd hwg hsa hwr hcl hin hlen
    constructor <;>
      simp [dialContext, drainBoundAddr, hd, hcd, hwg, hsa, hwr, hcl, hin, readFull, List.getD, hlen]

/-- The C10 witness environment: a destination host of 256 bytes. -/
def envLongHost : DialEnv :=
  ⟨true, none, true, some (List.replicate 256 97, 443), true, true,
   [5, 0, 5, 0, 0, 1, 0, 0, 0, 0, 0, 80]⟩

/-- C10 witness: with a 256-byte host the length prefix is 0, not 256,
the dial still succeeds, and port 443 encodes big-endian within
65536. -/
theorem c10_connect_request_encoding_witness :
    ((connectRequest (List.replicate 256 97) 443).getD 4 0 = (List.replicate 256 97).length % 256
      ∧ (connectRequest (List.replicate 256 97) 443).getD 4 0 ≠ (List.replicate 256 97).length)
    ∧ (goByte (goShr8 443) < 256 ∧ goByte 443 < 256
        ∧ 256 * goByte (goShr8 443) + goByte 443 = ((443 : Int) % 65536).toNat)
    ∧ (dialContext envLongHost).res = .ok ()
    ∧ (dialContext envLongHost).written
        = [5, 1, 0] ++ connectRequest (List.replicate 256 97) 443 :=
  ⟨c10_connect_request_encoding.2.1 (List.replicate 256 97) 443
     (by simp only [List.length_replicate]; omega),
   c10_connect_request_encoding.2.2.1 443,
   c10_connect_request_encoding.2.2.2 envLongHost (List.replicate 256 97) 443
     [0, 0, 0, 0, 0, 80] rfl (by decide) rfl rfl rfl rfl rfl (by decide)⟩

/-! ## C9 — VLESS URL round-trip into the provider config -/

/-- The parse of the C9 counterexample URL: every recognised query key
is present and non-empty, with `security=tls`. -/
def cTLS9 : VLESSConfig :=
  { uuid := "u", address := "h", port := 1, security := "tls", pbk := "p",
    sni := "s", fp := "f", sid := "i", spx := "x", type := "tcp" }

/-- C9 counterexample: a URL carrying all recognised keys with non-empty
values whose `security` is `tls` does NOT round-trip — the rebuilt
provider configuration drops `pbk`, `sid` and `spx` (only
`realitySettings` carries them), so the extracted mapping differs from
the parsed one. -/
theorem c9_roundtrip_counterexample :
    parseVLESSURL "vless://u@h:1?type=tcp&security=tls&sni=s&fp=f&pbk=p&sid=i&spx=x"
      = .ok cTLS9
    ∧ (cTLS9.type ≠ "" ∧ cTLS9.security ≠ "" ∧ cTLS9.sni ≠ "" ∧ cTLS9.fp ≠ ""
        ∧ cTLS9.pbk ≠ "" ∧ cTLS9.sid ≠ "" ∧ cTLS9.spx ≠ "")
    ∧ extractMapping (createXrayConfig "" cTLS9 1080) ≠ some (mappingOfConfig cTLS9) := by
  refine ⟨rfl, by decide, by decide⟩

/-- C9 (amended): for every VLESS URL whose parse has
`security=reality`, rebuilding the provider configuration preserves the
whole `{uuid, host, port, type, security, sni, fp, pbk, sid, spx}`
mapping — uuid as the user id, host and port in `vnext`, the security
parameters in the stream settings (`sid`/`spx` are omitted from the
config when empty and read back as empty). -/
theorem c9_roundtrip_reality_amended (s : String) (c : VLESSConfig) (socksPort : Int)
    (hparse : parseVLESSURL s = .ok c) (hsec : c.security = "reality") :
    extractMapping (createXrayConfig "" c socksPort) = some (mappingOfConfig c) := by
  rcases c with ⟨uuid, address, port, security, pbk, sni, fp, sid, spx, ty⟩
  simp only at hsec
  subst hsec
  by_cases hsid : sid = "" <;> by_cases hspx : spx = "" <;>
    simp [createXrayConfig, createStreamSettings, extractMapping, mappingOfConfig, hsid, hspx]

/-- The parse of the C9 witness URL (the reality URL of the repo's own
test data). -/
def cReality9 : VLESSConfig :=
  { uuid := "uuid-123", address := "example.com", port := 443, security := "reality",
    pbk := "test-key", sni := "google.com", fp := "chrome", sid := "short123",
    spx := "/", type := "tcp" }

/-- C9 witness: the round trip on a concrete reality URL. -/
theorem c9_roundtrip_reality_amended_witness :
    extractMapping (createXrayConfig "" cReality9 1080) = some (mappingOfConfig cReality9) :=
  c9_roundtrip_reality_amended
    "vless://uuid-123@example.com:443?type=tcp&security=reality&pbk=test-key&sni=google.com&sid=short123&spx=/&fp=chrome"
    cReality9 1080 rfl rfl

end XrayHealth
